import Mathlib

/-!
Shallow embedding of the `outfit-scanner` repository's heuristic core
(`app/api/process-image/route.ts`): the attribute extractor, the query
builder, the shopping-search result mapping, and the request orchestrator
(`POST`).  External I/O (the vision annotation service, the SerpAPI fetch)
is modelled by passing the service responses in as explicit data; all of
the repository's own logic on those responses is embedded faithfully.
-/

namespace OutfitScanner

/-- JavaScript string truthiness for an optional string field:
`undefined` and `""` are falsy, every other string is truthy. -/
def strTruthy : Option String → Bool
  | none => false
  | some s => !(s == "")

/-- `sub` occurs as a contiguous run inside `l`. -/
def listHasInfix (sub : List Char) : List Char → Bool
  | [] => sub.isPrefixOf []
  | c :: rest => sub.isPrefixOf (c :: rest) || listHasInfix sub rest

/-- JavaScript `String.prototype.includes`: substring containment. -/
def jsIncludes (s sub : String) : Bool :=
  listHasInfix sub.toList s.toList

/-- JavaScript `String.prototype.toLowerCase` (ASCII fragment, which is
all the fixed keyword tables use). -/
def jsToLower (s : String) : String :=
  String.mk (s.toList.map Char.toLower)

/-- JavaScript `Array.from(new Set(l))`: removes duplicates keeping the
first occurrence of each element (Set insertion order). -/
def jsSetDedup (l : List String) : List String :=
  l.foldl (fun acc s => if s ∈ acc then acc else acc ++ [s]) []

/-- JavaScript `Array.prototype.join(" ")`. -/
def joinSpace : List String → String
  | [] => ""
  | [s] => s
  | s :: rest => s ++ " " ++ joinSpace rest

/-- Whitespace test used by `String.prototype.trim`. -/
def isWS (c : Char) : Bool := c.isWhitespace

/-- `String.prototype.trim` on a character list: strip leading and
trailing whitespace. -/
def jsTrimList (l : List Char) : List Char :=
  (((l.dropWhile isWS).reverse).dropWhile isWS).reverse

/-- `String.prototype.trim`. -/
def jsTrim (s : String) : String := String.mk (jsTrimList s.toList)

/-- The `Attributes` record of `route.ts` (all fields optional). -/
structure Attributes where
  brand : Option String := none
  category : Option String := none
  colors : Option (List String) := none
  patterns : Option (List String) := none
  texts : Option (List String) := none
  deriving Repr, DecidableEq

/-- `\w` of the JavaScript regex engine: `[A-Za-z0-9_]`. -/
def isWordChar (c : Char) : Bool := c.isAlphanum || c == '_'

/-- The alternatives of the regex `/\b(t-?shirt|tee|shirt)\b/`. -/
def teeWords : List (List Char) :=
  ["t-shirt".toList, "tshirt".toList, "tee".toList, "shirt".toList]

/-- One alternative matches at the head of `s`, with `prev` the character
just before: both ends must sit on a `\b` word boundary (each alternative
starts and ends with a word character, so the adjacent character must be
absent or a non-word character). -/
def teeMatchAt (prev : Option Char) (w : List Char) (s : List Char) : Bool :=
  (prev.all fun c => !isWordChar c) && w.isPrefixOf s &&
    ((s.drop w.length).head?.all fun c => !isWordChar c)

/-- Scan of `/\b(t-?shirt|tee|shirt)\b/.test`: try every position. -/
def teeScan : Option Char → List Char → Bool
  | prev, [] => teeWords.any fun w => teeMatchAt prev w []
  | prev, c :: rest =>
    (teeWords.any fun w => teeMatchAt prev w (c :: rest)) || teeScan (some c) rest

/-- `/\b(t-?shirt|tee|shirt)\b/.test(txt)` of `buildQuery` (line 333). -/
def teeRegexTest (txt : String) : Bool := teeScan none txt.toList

/-- The category-inference mutation performed by `buildQuery`
(line 332-333): if `a.category` is falsy and the lowercased join of
`a.texts ?? []` matches the tee regex, set `category` to `"t-shirt"`. -/
def patchCategory (a : Attributes) : Attributes :=
  let txt := jsToLower (joinSpace (a.texts.getD []))
  if !(strTruthy a.category) && teeRegexTest txt then
    { a with category := some "t-shirt" }
  else a

/-- `buildQuery` (lines 330-346), modelled with its mutation made
explicit: returns the query string together with the attribute record as
it stands after the call (the source mutates `a.category` in place). -/
def buildQueryM (a0 : Attributes) : String × Attributes :=
  let a := patchCategory a0
  let parts : List String :=
    (if strTruthy a.brand then [a.brand.getD ""] else []) ++
    (if strTruthy a.category then [a.category.getD ""] else []) ++
    (match a.colors with | some (c :: _) => [c] | _ => []) ++
    (match a.patterns with | some (p :: _) => [p] | _ => [])
  if !(strTruthy a.brand) && !(strTruthy a.category) then ("", a)
  else (jsTrim (joinSpace (parts ++ ["buy"])), a)

/-- The query string returned by `buildQuery`. -/
def buildQuery (a : Attributes) : String := (buildQueryM a).1

/-- The fixed keyword → canonical-name brand table of `pickBrandFromPools`
(lines 222-248), in the source's insertion order, which is the order
`for (const key in brandMap)` iterates. -/
def brandMap : List (String × String) :=
  [("nike", "Nike"), ("swoosh", "Nike"), ("just do it", "Nike"),
   ("adidas", "Adidas"), ("three stripes", "Adidas"), ("puma", "Puma"),
   ("the north face", "The North Face"), ("north face", "The North Face"),
   ("patagonia", "Patagonia"), ("levi\x27s", "Levi\x27s"),
   ("levis", "Levi\x27s"), ("uniqlo", "UNIQLO"), ("zara", "Zara"),
   ("h&m", "H&M"), ("hm", "H&M"), ("under armour", "Under Armour"),
   ("new balance", "New Balance"), ("asics", "ASICS"), ("vans", "Vans"),
   ("converse", "Converse"), ("reebok", "Reebok"), ("supreme", "Supreme"),
   ("stussy", "Stüssy"), ("lululemon", "Lululemon"), ("lulu", "Lululemon")]

/-- The inner loop of `pickBrandFromPools`: the first key (in map order)
contained in the pool string `s`, if any, mapped to its canonical name. -/
def findBrandIn (s : String) : Option String :=
  (brandMap.find? fun kv => jsIncludes s kv.1).map (·.2)

/-- `pickBrandFromPools` (lines 221-255): outer loop over pool strings in
order, inner loop over the brand map in order; the first hit returns. -/
def pickBrandFromPools : List String → Option String
  | [] => none
  | s :: rest =>
    match findBrandIn s with
    | some b => some b
    | none => pickBrandFromPools rest

/-- `normalizeBrand` (lines 257-260): `undefined` on a falsy input,
identity otherwise. -/
def normalizeBrand : Option String → Option String
  | none => none
  | some b => if b == "" then none else some b

/-- The fixed ordered category keyword groups of `pickCategoryFromPools`
(lines 263-276). -/
def cats : List (List String) :=
  [["t-shirt", "tee", "shirt", "jersey", "top"],
   ["hoodie", "sweatshirt"],
   ["jacket", "coat", "parka"],
   ["sweater", "knit", "cardigan"],
   ["dress"],
   ["skirt"],
   ["jeans", "denim"],
   ["pants", "trousers", "slacks", "chinos", "cargo"],
   ["shorts"],
   ["shoes", "sneakers", "trainers", "boots"],
   ["bag", "handbag", "backpack", "tote"],
   ["hat", "cap", "beanie"]]

/-- `pickCategoryFromPools` (lines 262-283): first group with any keyword
contained in any pool string wins; its first keyword is the canonical
category. -/
def pickCategoryFromPools (pools : List String) : Option String :=
  (cats.find? fun group =>
    pools.any fun s => group.any fun g => jsIncludes s g).map (·.headD "")

/-- The fixed color palette word list of `pickColors` (line 287). -/
def colorWords : List String :=
  ["black", "white", "gray", "grey", "red", "blue", "green", "yellow",
   "pink", "purple", "brown", "beige", "tan", "orange"]

/-- `pickColors` (lines 286-291): palette words contained in any of the
lowercased strings, accumulated into a `Set` (insertion order, no
duplicates) and spread back to an array. -/
def pickColors (labelsLower : List String) : List String :=
  labelsLower.foldl
    (fun acc l =>
      colorWords.foldl
        (fun acc2 c => if jsIncludes l c && !(acc2.contains c) then acc2 ++ [c] else acc2)
        acc)
    []

/-- The fixed pattern keyword list of `pickPatterns` (line 294). -/
def patternWords : List String :=
  ["striped", "plaid", "checkered", "floral", "polka dot", "graphic",
   "logo", "solid"]

/-- `pickPatterns` (lines 293-298): same `Set` accumulation as
`pickColors`, over the pattern keyword list. -/
def pickPatterns (labelsLower : List String) : List String :=
  labelsLower.foldl
    (fun acc l =>
      patternWords.foldl
        (fun acc2 p => if jsIncludes l p && !(acc2.contains p) then acc2 ++ [p] else acc2)
        acc)
    []

/-- The fixed RGB palette of `approxColorName` (lines 302-315). -/
def rgbPalette : List (String × Int × Int × Int) :=
  [("black", 0, 0, 0), ("white", 255, 255, 255), ("gray", 128, 128, 128),
   ("red", 220, 20, 60), ("blue", 65, 105, 225), ("green", 34, 139, 34),
   ("yellow", 255, 215, 0), ("pink", 255, 105, 180),
   ("purple", 138, 43, 226), ("brown", 139, 69, 19),
   ("beige", 245, 245, 220), ("orange", 255, 140, 0)]

/-- `approxColorName` (lines 301-327): nearest palette entry by squared
Euclidean RGB distance, scanning the palette in order with a strict
improvement test (`bestDist` starts at `Infinity`, so the first entry
always becomes the running best). -/
def approxColorName (r g b : Int) : Option String :=
  (rgbPalette.foldl
    (fun (acc : Option String × Option Int) nv =>
      let d := (r - nv.2.1) ^ 2 + (g - nv.2.2.1) ^ 2 + (b - nv.2.2.2) ^ 2
      match acc.2 with
      | none => (some nv.1, some d)
      | some bd => if d < bd then (some nv.1, some d) else acc)
    (none, none)).1

/-- What the annotation service returned for one image, as the fields the
route reads from it: each entry is the optional `description` (or object
`name`) of one annotation, and each dominant color is its `red`, `green`,
`blue` channels with the source's `?? 0` defaults already applied.
Everything the route itself computes from these lists is embedded below. -/
structure VisionData where
  logoDescs : List (Option String) := []
  labelDescs : List (Option String) := []
  textDescs : List (Option String) := []
  webEntityDescs : List (Option String) := []
  objectNames : List (Option String) := []
  domColors : List (Int × Int × Int) := []
  deriving Repr

/-- `.map(x => x.description?.trim()).filter(Boolean)` (lines 167-173):
missing and empty-after-trim descriptions are dropped. -/
def trimFilter (l : List (Option String)) : List String :=
  (l.filterMap fun d => d.map fun s => String.mk (jsTrimList s.toList)).filter
    fun s => !(s == "")

/-- `extractAttributes` (lines 134-218), as the pure reduction of the
annotation-service responses to an `Attributes` record (the service calls
themselves are external I/O represented by the `VisionData` argument). -/
def extractAttributes (v : VisionData) : Attributes :=
  let logoWords := v.logoDescs.map (·.getD "")
  let labelWords := v.labelDescs.map (·.getD "")
  let texts := trimFilter v.textDescs
  let webEntities := trimFilter v.webEntityDescs
  let objects := (trimFilter v.objectNames).map jsToLower
  let colorNames :=
    ((v.domColors.take 5).map fun c => approxColorName c.1 c.2.1 c.2.2).filterMap id
  let pools :=
    (logoWords ++ labelWords ++ texts ++ webEntities ++ objects).map jsToLower
  let brand := normalizeBrand (pickBrandFromPools pools)
  let category := pickCategoryFromPools pools
  let patterns := pickPatterns ((labelWords ++ webEntities).map jsToLower)
  let colors := (jsSetDedup (pickColors pools ++ colorNames)).take 3
  { brand := brand, category := category, colors := some colors,
    patterns := some patterns, texts := some texts }

/-- One entry of SerpAPI's `shopping_results`, as the fields the route
reads (each may be absent in the service's heterogeneous schema). -/
structure SerpItem where
  product_id : Option String := none
  position : Option Nat := none
  title : Option String := none
  price : Option String := none
  extracted_price : Option Rat := none
  source : Option String := none
  domain : Option String := none
  link : Option String := none
  thumbnail : Option String := none
  deriving Repr, DecidableEq

/-- The `MatchItem` type (`type/result.ts`): every field optional; `id`
may be a string or a number.  The source field named `match` is spelled
`matchScore` here because `match` is reserved in Lean. -/
structure MatchItem where
  id : Option (String ⊕ Nat) := none
  title : Option String := none
  price : Option String := none
  store : Option String := none
  url : Option String := none
  image : Option String := none
  matchScore : Option Nat := none
  deriving Repr, DecidableEq

/-- Two-digit zero padding for the fractional part of `toFixed(2)`. -/
def pad2 (m : Nat) : String :=
  if m < 10 then "0" ++ toString m else toString m

/-- JavaScript `Number.prototype.toFixed(2)` on the embedded numeric
value: nearest multiple of 1/100, ties towards the larger integer
(ECMA-262 picks the larger `n` on a tie), i.e. `n = ⌊100·q + 1/2⌋`,
computed here on the numerator and denominator directly. -/
def jsToFixed2 (q : Rat) : String :=
  let n : Int := Int.fdiv (200 * q.num + (q.den : Int)) (2 * (q.den : Int))
  if n < 0 then
    "-" ++ toString ((-n).toNat / 100) ++ "." ++ pad2 ((-n).toNat % 100)
  else
    toString (n.toNat / 100) ++ "." ++ pad2 (n.toNat % 100)

/-- The per-item mapping of `searchShopping` (lines 365-375): `i` is the
item's index in the service's result list.  `??` falls through only on an
absent field, hence the `match`es rather than truthiness tests. -/
def mkMatchItem (i : Nat) (it : SerpItem) : MatchItem :=
  { id := some (match it.product_id with
      | some p => Sum.inl p
      | none => match it.position with
        | some n => Sum.inr n
        | none => Sum.inr i)
  , title := it.title
  , price := match it.price with
      | some p => some p
      | none => it.extracted_price.map fun q => "$" ++ jsToFixed2 q
  , store := match it.source with
      | some s => some s
      | none => it.domain
  , url := it.link
  , image := it.thumbnail
  , matchScore := none }

/-- `items.slice(0, 12).map((it, i) => ...)` written as explicit
index-passing recursion. -/
def mapWithIdx (i : Nat) : List SerpItem → List MatchItem
  | [] => []
  | it :: rest => mkMatchItem i it :: mapWithIdx (i + 1) rest

/-- The result-mapping stage of `searchShopping` (lines 364-377): take the
first 12 entries of `json.shopping_results ?? []` and map each to a
`MatchItem`.  The preceding fetch and `SERPAPI_KEY` check are external
I/O; the service's parsed result list is the argument. -/
def searchShopping (items : List SerpItem) : List MatchItem :=
  mapWithIdx 0 (items.take 12)

/-- The `USE_SERPAPI` toggle (line 11). -/
def USE_SERPAPI : Bool := false

/-- The diagnostic payload attached under `debug` on the responses built
after attribute extraction (lines 107, 115, 124).  The `projectId` member
is external (the vision client's credential lookup) and carries no route
logic, so it is not modelled. -/
structure DebugInfo where
  query : String
  attributes : Attributes
  count : Nat
  dry : Bool
  deriving Repr, DecidableEq

/-- A `POST` request as the route reads it: the `debug=1` query flag, the
`file` form field (represented, when present, by what the annotation
service returns for its bytes), and the `tiktokUrl` form field
(`form.get(...) || ""`, so an absent field is the empty string). -/
structure ReqInput where
  debug : Bool := false
  file : Option VisionData := none
  tiktokUrl : String := ""

/-- The JSON response of the route, plus a `searchCalled` trace recording
whether `searchShopping` (the external search service) was invoked while
producing it. -/
structure RouteResponse where
  status : Nat
  matchList : Option (List MatchItem) := none
  note : Option String := none
  error : Option String := none
  dbg : Option DebugInfo := none
  searchCalled : Bool := false

/-- The `POST` handler (lines 56-131) on the successful-I/O paths: the
annotation responses for the uploaded file arrive inside `req`, and
`serviceResults` is what the search service would answer (consulted only
on the branch that calls it).  The `catch` wrapper (line 127-130) maps an
upstream-service exception to a plain 500 and is outside this pure model,
as is the thrown `Missing SERPAPI_KEY`. -/
def POST (req : ReqInput) (serviceResults : List SerpItem) : RouteResponse :=
  if req.file.isNone && req.tiktokUrl == "" then
    { status := 400, error := some "Provide a file or a TikTok URL" }
  else
    match req.file with
    | none =>
      { status := 200, matchList := some [],
        note := some "Upload a screenshot of the outfit moment for best results." }
    | some v =>
      let attributes := extractAttributes v
      let qa := buildQueryM attributes
      let query := qa.1
      if query == "" then
        { status := 200, matchList := some [],
          dbg := if req.debug then some ⟨query, qa.2, 0, false⟩ else none }
      else if !USE_SERPAPI then
        { status := 200, matchList := some [],
          dbg := if req.debug then some ⟨query, qa.2, 0, true⟩ else none }
      else
        let found := searchShopping serviceResults
        { status := 200, matchList := some found,
          dbg := if req.debug then some ⟨query, qa.2, found.length, false⟩ else none,
          searchCalled := true }

/-! ## Helper lemmas -/

/-- `joinSpace` of a list ending in `"buy"` ends in `"buy"`. -/
lemma joinSpace_ends_buy (l : List String) :
    ∃ t : String, joinSpace (l ++ ["buy"]) = t ++ "buy" := by
  induction l with
  | nil => exact ⟨"", rfl⟩
  | cons s rest ih =>
    obtain ⟨t, ht⟩ := ih
    cases rest with
    | nil => exact ⟨s ++ " ", rfl⟩
    | cons r rs =>
      refine ⟨s ++ " " ++ t, ?_⟩
      show s ++ " " ++ joinSpace ((r :: rs) ++ ["buy"]) = s ++ " " ++ t ++ "buy"
      rw [ht]
      simp [String.append_assoc]

/-- Dropping a whitespace prefix from `l ++ m` when `m` starts with a
non-whitespace character never reaches into `m`. -/
lemma dropWhile_append_keep (l m : List Char) (hm : m.dropWhile isWS = m) :
    (l ++ m).dropWhile isWS = l.dropWhile isWS ++ m := by
  induction l with
  | nil => simpa using hm
  | cons c rest ih =>
    by_cases hc : isWS c
    · simpa [List.dropWhile_cons, hc] using ih
    · simp [List.dropWhile_cons, hc]

/-- Trimming a string that ends in `"buy"` cannot give the empty string. -/
lemma jsTrim_ends_buy_ne_empty (t : String) : jsTrim (t ++ "buy") ≠ "" := by
  intro h
  have hdata : jsTrimList ((t ++ "buy").toList) = [] := by
    have := congrArg String.data h
    simpa [jsTrim] using this
  have htl : (t ++ "buy").toList = t.toList ++ ['b', 'u', 'y'] := by
    cases t with
    | mk l => rfl
  rw [htl] at hdata
  unfold jsTrimList at hdata
  rw [dropWhile_append_keep t.toList ['b', 'u', 'y'] (by decide)] at hdata
  rw [List.reverse_append] at hdata
  have : isWS 'y' = false := by decide
  simp [List.dropWhile_cons, this] at hdata

/-- `patchCategory` leaves every field but `category` unchanged, and the
patched category is truthy exactly when the query-building keeps going. -/
lemma patchCategory_fields (a : Attributes) :
    (patchCategory a).brand = a.brand ∧ (patchCategory a).colors = a.colors ∧
    (patchCategory a).patterns = a.patterns ∧ (patchCategory a).texts = a.texts := by
  unfold patchCategory
  by_cases h : (!(strTruthy a.category) && teeRegexTest (jsToLower (joinSpace (a.texts.getD [])))) = true
  · simp [h]
  · simp [h]

/-- The truthiness of the category after `patchCategory`. -/
lemma patchCategory_category_truthy (a : Attributes) :
    strTruthy (patchCategory a).category =
      (strTruthy a.category ||
        teeRegexTest (jsToLower (joinSpace (a.texts.getD [])))) := by
  unfold patchCategory
  cases hc : strTruthy a.category <;>
    cases hr : teeRegexTest (jsToLower (joinSpace (a.texts.getD []))) <;>
      simp [hc, hr] <;> decide

/-! ## C1: when `buildQuery` returns the empty string -/

/-- C1 counterexample: the record with no brand, no category and OCR text
`"tee"` has both brand and category absent, yet `buildQuery` returns the
non-empty string `"t-shirt buy"` (the category is first inferred from the
text), so "empty iff both brand and category are absent" fails in the
"both absent implies empty" direction. -/
theorem C1_counterexample_buildQuery_inferred :
    (⟨none, none, none, none, some ["tee"]⟩ : Attributes).brand = none ∧
    (⟨none, none, none, none, some ["tee"]⟩ : Attributes).category = none ∧
    buildQuery ⟨none, none, none, none, some ["tee"]⟩ = "t-shirt buy" := by
  decide

/-- C1 (amended): `buildQuery` returns the empty string iff the brand is
absent (or empty), the category is absent (or empty), and no t-shirt word
can be inferred from the joined lowercased texts by the fixed regex. -/
theorem buildQuery_empty_iff (a : Attributes) :
    buildQuery a = "" ↔
      (strTruthy a.brand = false ∧ strTruthy a.category = false ∧
        teeRegexTest (jsToLower (joinSpace (a.texts.getD []))) = false) := by
  have hb := (patchCategory_fields a).1
  have hct := patchCategory_category_truthy a
  unfold buildQuery buildQueryM
  obtain ⟨t, ht⟩ := joinSpace_ends_buy
    ((if strTruthy (patchCategory a).brand then [(patchCategory a).brand.getD ""] else []) ++
     (if strTruthy (patchCategory a).category then [(patchCategory a).category.getD ""] else []) ++
     (match (patchCategory a).colors with | some (c :: _) => [c] | _ => []) ++
     (match (patchCategory a).patterns with | some (p :: _) => [p] | _ => []))
  cases hbt : strTruthy a.brand <;>
    cases hc : strTruthy a.category <;>
      cases hr : teeRegexTest (jsToLower (joinSpace (a.texts.getD []))) <;>
        simp only [hb, hbt, hc, hr, hct, Bool.not_true, Bool.not_false,
          Bool.false_and, Bool.true_and, Bool.and_false, Bool.and_true,
          Bool.or_false, Bool.or_true, Bool.false_or, Bool.true_or,
          if_true, if_false, ite_true, ite_false] <;>
        simp_all [ht, jsTrim_ends_buy_ne_empty t]

/-! ## C2: purity / frame of `buildQuery` on the attribute record -/

/-- C2 counterexample: `buildQuery` is not a pure reader of the record; on
the record with absent category and OCR text `"tee"` it mutates the
`category` field in place (modelled by the record component returned by
`buildQueryM`). -/
theorem C2_counterexample_buildQuery_mutates :
    (⟨none, none, none, none, some ["tee"]⟩ : Attributes).category = none ∧
    (buildQueryM ⟨none, none, none, none, some ["tee"]⟩).2.category
      = some "t-shirt" := by
  decide

/-- C2 (amended): after `buildQuery` returns, the `brand`, `colors`,
`patterns` and `texts` fields are unchanged, and `category` is unchanged
unless it was falsy and the fixed regex matched the joined lowercased
texts, in which case it has been set to `"t-shirt"`. -/
theorem buildQueryM_frame (a : Attributes) :
    (buildQueryM a).2.brand = a.brand ∧
    (buildQueryM a).2.colors = a.colors ∧
    (buildQueryM a).2.patterns = a.patterns ∧
    (buildQueryM a).2.texts = a.texts ∧
    ((buildQueryM a).2.category = a.category ∨
      (strTruthy a.category = false ∧
        teeRegexTest (jsToLower (joinSpace (a.texts.getD []))) = true ∧
        (buildQueryM a).2.category = some "t-shirt")) := by
  have h2 : (buildQueryM a).2 = patchCategory a := by
    unfold buildQueryM
    by_cases h : (!(strTruthy (patchCategory a).brand) &&
        !(strTruthy (patchCategory a).category)) = true
    · simp [h]
    · simp [h]
  obtain ⟨h₁, h₂, h₃, h₄⟩ := patchCategory_fields a
  refine ⟨h2 ▸ h₁, h2 ▸ h₂, h2 ▸ h₃, h2 ▸ h₄, ?_⟩
  rw [h2]
  unfold patchCategory
  cases hc : strTruthy a.category <;>
    cases hr : teeRegexTest (jsToLower (joinSpace (a.texts.getD []))) <;>
      simp [hc, hr]

/-! ## C4: brand resolution priority -/

/-- C4 counterexample: the pool `["adidas", "nike"]` contains the
configured keyword `"nike"`, whose canonical name is `"Nike"` and which
comes first in the fixed map order, yet `pickBrandFromPools` returns
`"Adidas"`: the outer loop walks the pool strings first, so pool order —
not map order — decides between keywords found in different pool
entries. -/
theorem C4_counterexample_pickBrand_pool_order :
    pickBrandFromPools ["adidas", "nike"] = some "Adidas" ∧
    ¬ pickBrandFromPools ["adidas", "nike"] = some "Nike" := by
  decide

/-- C4 (amended): brand resolution scans the pool strings in pool order
and, inside each string, the keyword map in map order; the first pool
entry containing any configured keyword decides, and among the keywords
contained in that entry the earliest one in the fixed map order defines
the canonical name (`findBrandIn` is exactly that map-order scan of one
entry).  Case never matters because the pools are lowercased and every
key is lowercase. -/
theorem pickBrandFromPools_first_entry (l₁ l₂ : List String) (s : String)
    (h₁ : ∀ t ∈ l₁, findBrandIn t = none) (b : String)
    (h₂ : findBrandIn s = some b) :
    pickBrandFromPools (l₁ ++ s :: l₂) = some b := by
  induction l₁ with
  | nil =>
    show pickBrandFromPools (s :: l₂) = some b
    unfold pickBrandFromPools
    rw [h₂]
  | cons t rest ih =>
    show pickBrandFromPools (t :: (rest ++ s :: l₂)) = some b
    unfold pickBrandFromPools
    rw [h₁ t (by simp)]
    exact ih fun u hu => h₁ u (by simp [hu])

/-- C4 witness: in `["plain denim", "big adidas swoosh logo", "nike"]` the
first entry contains no brand keyword and the second contains both
`"swoosh"` (second key in the map, canonical `"Nike"`) and `"adidas"`
(fourth key), so the first matching entry decides and, inside it, map
order picks `"swoosh"`, giving `"Nike"`. -/
theorem pickBrandFromPools_first_entry_witness :
    pickBrandFromPools (["plain denim"] ++ "big adidas swoosh logo" :: ["nike"])
      = some "Nike" := by
  exact pickBrandFromPools_first_entry ["plain denim"] ["nike"]
    "big adidas swoosh logo" (by decide) "Nike" (by decide)

/-! ## C7: extracted colors are capped at 3 and duplicate-free -/

/-- The `Set`-accumulation of `jsSetDedup` keeps the output duplicate
free. -/
lemma jsSetDedup_aux_nodup (l : List String) (acc : List String)
    (h : acc.Nodup) :
    (l.foldl (fun acc s => if s ∈ acc then acc else acc ++ [s]) acc).Nodup := by
  induction l generalizing acc with
  | nil => simpa using h
  | cons s rest ih =>
    simp only [List.foldl_cons]
    by_cases hs : s ∈ acc
    · simpa [hs] using ih acc h
    · have : (acc ++ [s]).Nodup := by
        rw [List.nodup_append]
        refine ⟨h, List.nodup_singleton s, ?_⟩
        intro a ha hmem
        have : a = s := by simpa using hmem
        exact hs (this ▸ ha)
      simpa [hs] using ih (acc ++ [s]) this

/-- `jsSetDedup` output has no duplicates. -/
lemma jsSetDedup_nodup (l : List String) : (jsSetDedup l).Nodup :=
  jsSetDedup_aux_nodup l [] List.nodup_nil

/-- C7: for every annotation-service response, the colors list built by
`extractAttributes` has at most 3 entries and no duplicate strings. -/
theorem extractAttributes_colors_inv (v : VisionData) :
    ∃ cs : List String, (extractAttributes v).colors = some cs ∧
      cs.length ≤ 3 ∧ cs.Nodup := by
  refine ⟨_, rfl, ?_, ?_⟩
  · rw [List.length_take]
    exact min_le_left _ _
  · exact List.Nodup.sublist (List.take_sublist _ _) (jsSetDedup_nodup _)

/-! ## C8 and C10: the shopping-result mapping -/

/-- Index-passing map preserves length. -/
lemma mapWithIdx_length (k : Nat) (l : List SerpItem) :
    (mapWithIdx k l).length = l.length := by
  induction l generalizing k with
  | nil => rfl
  | cons it rest ih => simp [mapWithIdx, ih]

/-- Entry `i` of the index-passing map is the mapping of entry `i` of the
input, tagged with its index. -/
lemma mapWithIdx_get (k : Nat) (l : List SerpItem) (i : Nat)
    (h : i < (mapWithIdx k l).length) (h' : i < l.length) :
    (mapWithIdx k l).get ⟨i, h⟩ = mkMatchItem (k + i) (l.get ⟨i, h'⟩) := by
  induction l generalizing k i with
  | nil => exact absurd h' (by simp)
  | cons it rest ih =>
    cases i with
    | zero => simp [mapWithIdx]
    | succ j =>
      have hj : j < (mapWithIdx (k + 1) rest).length := by
        simpa [mapWithIdx] using h
      have hj' : j < rest.length := by simpa using h'
      have := ih (k + 1) j hj hj'
      simpa [mapWithIdx, Nat.add_assoc, Nat.add_comm 1 j] using this

/-- C8: the adapter keeps at most the first 12 service results, in the
service's order and without deduplication (entry `i` of the output is the
mapping of entry `i` of the input, for every `i` below the cap), and each
output's price is the service's pre-formatted `price` string when
present, else the numeric `extracted_price` formatted to two decimals
behind `"$"`, else absent. -/
theorem searchShopping_maps_first12 (items : List SerpItem) (i : Nat)
    (hi : i < items.length) (hcap : i < 12) :
    (searchShopping items).length = min 12 items.length ∧
    ∃ h : i < (searchShopping items).length,
      (searchShopping items).get ⟨i, h⟩ = mkMatchItem i (items.get ⟨i, hi⟩) ∧
      ((searchShopping items).get ⟨i, h⟩).price =
        (match (items.get ⟨i, hi⟩).price with
          | some p => some p
          | none => (items.get ⟨i, hi⟩).extracted_price.map
              fun q => "$" ++ jsToFixed2 q) := by
  have hlen : (searchShopping items).length = min 12 items.length := by
    unfold searchShopping
    rw [mapWithIdx_length, List.length_take]
  have hlt : i < (searchShopping items).length := by
    rw [hlen]
    exact lt_min hcap hi
  have htake : i < (items.take 12).length := by
    rw [List.length_take]
    exact lt_min hcap hi
  have hget : (searchShopping items).get ⟨i, hlt⟩
      = mkMatchItem i (items.get ⟨i, hi⟩) := by
    unfold searchShopping
    rw [mapWithIdx_get 0 (items.take 12) i _ htake]
    congr 1
    · exact Nat.zero_add i
    · exact List.getElem_take items
  exact ⟨hlen, hlt, hget, by rw [hget]; rfl⟩

/-- C8 witness: a two-item service response, the first priced only by the
numeric `extracted_price` field `19.5`, the second carrying a
pre-formatted `price` string. -/
theorem searchShopping_maps_first12_witness :
    (searchShopping [{ extracted_price := some (mkRat 39 2) },
        { price := some "$5", title := some "B" }]).length
      = min 12 2 ∧
    ∃ h, (searchShopping [{ extracted_price := some (mkRat 39 2) },
        { price := some "$5", title := some "B" }]).get ⟨1, h⟩
      = mkMatchItem 1 ({ price := some "$5", title := some "B" } : SerpItem) ∧
    ((searchShopping [{ extracted_price := some (mkRat 39 2) },
        { price := some "$5", title := some "B" }]).get ⟨1, h⟩).price
      = some "$5" := by
  have := searchShopping_maps_first12
    [{ extracted_price := some (mkRat 39 2) },
     { price := some "$5", title := some "B" }] 1 (by decide) (by decide)
  simpa using this

/-- Every mapped item carries a defined id. -/
lemma mapWithIdx_id_isSome (k : Nat) (l : List SerpItem) (m : MatchItem)
    (hm : m ∈ mapWithIdx k l) : m.id.isSome = true := by
  induction l generalizing k with
  | nil => cases hm
  | cons it rest ih =>
    rcases (by simpa [mapWithIdx] using hm :
        m = mkMatchItem k it ∨ m ∈ mapWithIdx (k + 1) rest) with h | h
    · subst h
      unfold mkMatchItem
      cases it.product_id <;> cases it.position <;> rfl
    · exact ih (k + 1) h

/-- C10: every `MatchItem` the adapter produces has a defined `id` — the
service's `product_id` if present, else its `position`, else the item's
index — although the `MatchItem` type declares `id` optional. -/
theorem searchShopping_id_defined (items : List SerpItem) (i : Nat)
    (h : i < (searchShopping items).length) :
    ((searchShopping items).get ⟨i, h⟩).id.isSome = true := by
  exact mapWithIdx_id_isSome 0 (items.take 12) _ (List.get_mem _ _ _)

/-- C10 witness: a service item with neither `product_id` nor `position`
still yields a defined id (its index). -/
theorem searchShopping_id_defined_witness :
    ((searchShopping [{ title := some "A" }]).get ⟨0, by decide⟩).id.isSome
      = true := by
  exact searchShopping_id_defined [{ title := some "A" }] 0 (by decide)

/-! ## C3: dry-run mode -/

/-- C3: with the search adapter disabled (`USE_SERPAPI = false`, as the
source hardcodes), every request whose uploaded file yields a non-empty
query gets a terminal HTTP 200 response with an empty match list, and the
search service is not called, whatever it would have answered. -/
theorem POST_dry_run (req : ReqInput) (sr : List SerpItem) (v : VisionData)
    (hf : req.file = some v)
    (hq : buildQuery (extractAttributes v) ≠ "") :
    USE_SERPAPI = false ∧
    (POST req sr).status = 200 ∧
    (POST req sr).matchList = some [] ∧
    (POST req sr).searchCalled = false := by
  refine ⟨rfl, ?_⟩
  have hq' : ((buildQueryM (extractAttributes v)).1 == "") = false := by
    exact beq_false_of_ne hq
  unfold POST
  rw [hf]
  simp only [Option.isNone_some, Bool.false_and, Bool.false_eq_true,
    if_false, hq', USE_SERPAPI, Bool.not_false, if_true]
  simp

/-- C3 witness: an upload whose only annotation is the Nike logo yields
the query `"Nike buy"`; the response is a 200 with no matches and the
search service untouched. -/
theorem POST_dry_run_witness :
    USE_SERPAPI = false ∧
    (POST ⟨false, some { logoDescs := [some "Nike"] }, ""⟩
        [{ price := some "$5" }]).status = 200 ∧
    (POST ⟨false, some { logoDescs := [some "Nike"] }, ""⟩
        [{ price := some "$5" }]).matchList = some [] ∧
    (POST ⟨false, some { logoDescs := [some "Nike"] }, ""⟩
        [{ price := some "$5" }]).searchCalled = false := by
  exact POST_dry_run ⟨false, some { logoDescs := [some "Nike"] }, ""⟩
    [{ price := some "$5" }] { logoDescs := [some "Nike"] } rfl (by decide)

/-! ## C5: the debug payload -/

/-- C5 counterexample: a `debug=1` request with neither file nor link
takes the bad-request terminal branch, whose response carries no
diagnostic payload, so "on every terminal branch" fails. -/
theorem C5_counterexample_debug_missing_on_400 :
    (POST ⟨true, none, ""⟩ []).status = 400 ∧
    (POST ⟨true, none, ""⟩ []).dbg = none := by
  constructor <;> rfl

/-- C5 (amended): a `debug=1` request carrying a file receives a
diagnostic payload on every terminal branch reached after attribute
extraction (empty-query, dry-run, and search-success responses); the
bad-request and link-only branches (and the exception path) never attach
one. -/
theorem POST_debug_payload (req : ReqInput) (sr : List SerpItem)
    (v : VisionData) (hd : req.debug = true) (hf : req.file = some v) :
    ((POST req sr).dbg).isSome = true := by
  unfold POST
  rw [hf, hd]
  simp only [Option.isNone_some, Bool.false_and, Bool.false_eq_true, if_false]
  by_cases hq : ((buildQueryM (extractAttributes v)).1 == "") = true
  · simp [hq]
  · simp [hq, USE_SERPAPI]

/-- C5 witness: the dry-run response to a Nike-logo upload with `debug=1`
carries the diagnostic payload. -/
theorem POST_debug_payload_witness :
    ((POST ⟨true, some { logoDescs := [some "Nike"] }, ""⟩ []).dbg).isSome
      = true := by
  exact POST_debug_payload ⟨true, some { logoDescs := [some "Nike"] }, ""⟩
    [] { logoDescs := [some "Nike"] } rfl rfl

/-! ## C9: the input gates -/

/-- C9: a request with neither `file` nor `tiktokUrl` gets HTTP 400 with
an `error` field; a request with only a `tiktokUrl` gets HTTP 200 with an
empty `matches` list and a `note` field. -/
theorem POST_input_gates (sr : List SerpItem) (d : Bool) (u : String)
    (hu : u ≠ "") :
    (POST ⟨d, none, ""⟩ sr).status = 400 ∧
    ((POST ⟨d, none, ""⟩ sr).error).isSome = true ∧
    (POST ⟨d, none, u⟩ sr).status = 200 ∧
    (POST ⟨d, none, u⟩ sr).matchList = some [] ∧
    ((POST ⟨d, none, u⟩ sr).note).isSome = true := by
  have hu' : (u == "") = false := beq_false_of_ne hu
  refine ⟨rfl, rfl, ?_⟩
  unfold POST
  simp only [Option.isNone_none, Bool.true_and, hu', Bool.false_eq_true, if_false]
  simp

/-- C9 witness: instantiated at a concrete TikTok link. -/
theorem POST_input_gates_witness :
    (POST ⟨false, none, ""⟩ []).status = 400 ∧
    ((POST ⟨false, none, ""⟩ []).error).isSome = true ∧
    (POST ⟨false, none, "https://www.tiktok.com/@u/video/1"⟩ []).status = 200 ∧
    (POST ⟨false, none, "https://www.tiktok.com/@u/video/1"⟩ []).matchList
      = some [] ∧
    ((POST ⟨false, none, "https://www.tiktok.com/@u/video/1"⟩ []).note).isSome
      = true := by
  exact POST_input_gates [] false "https://www.tiktok.com/@u/video/1" (by decide)

/-! ## C6: the query is the fixed-order concatenation -/

/-- C6: whenever the query is non-empty (the patched brand or category is
truthy), it is exactly the trimmed space-separated concatenation, in
fixed order, of the present fields among: brand, category (as it stands
after the text inference), first color, first pattern, then the trailing
intent token `"buy"`. -/
theorem buildQuery_fixed_order (a : Attributes)
    (h : strTruthy a.brand = true ∨ strTruthy (patchCategory a).category = true) :
    buildQuery a =
      jsTrim (joinSpace (
        (if strTruthy a.brand then [a.brand.getD ""] else []) ++
        (if strTruthy (patchCategory a).category
          then [(patchCategory a).category.getD ""] else []) ++
        (match a.colors with | some (c :: _) => [c] | _ => []) ++
        (match a.patterns with | some (p :: _) => [p] | _ => []) ++
        ["buy"])) := by
  obtain ⟨hb, hco, hp, _⟩ := patchCategory_fields a
  have hcond : (!(strTruthy a.brand) &&
      !(strTruthy (patchCategory a).category)) = false := by
    rcases h with h | h
    · rw [h]
      rfl
    · rw [h]
      simp
  unfold buildQuery buildQueryM
  simp only [hcond, Bool.false_eq_true, if_false, hb, hco, hp, List.append_assoc]

/-- C6 witness: the spec's concrete example — brand `"Nike"`, category
`"t-shirt"`, colors `["black"]`, no patterns — builds exactly
`"Nike t-shirt black buy"`. -/
theorem buildQuery_fixed_order_witness :
    buildQuery ⟨some "Nike", some "t-shirt", some ["black"], none, none⟩
      = "Nike t-shirt black buy" := by
  have h := buildQuery_fixed_order
    ⟨some "Nike", some "t-shirt", some ["black"], none, none⟩ (Or.inl (by decide))
  rw [h]
  decide

end OutfitScanner
